import Mathlib

/-!
Shallow embedding of the serval-mesh agent and CLI sources, together with
theorems settling the specification claims about the scheduler endpoints,
the proxy middleware, the HTTP front door and the CLI client.

Source files embedded:
  src/agent/src/api/v1/scheduler.rs  (enqueue/claim/complete/tickle handlers, proxy)
  src/agent/src/main.rs              (port selection, body limit constant)
  src/cli/src/main.rs                (maybe_find_peer, main exit behaviour)

Parts of the repository that are referenced by those files but are not part
of the provided sources (the `utils` crate job-queue internals, the mesh
library, `find_nearest_port`, and the axum body-limit layer) are modelled
from the spec; each such definition carries a doc comment saying so.
-/

namespace ServalMesh

/-- Job lifecycle states. Modelled from the spec: `utils::structs::JobStatus` is
not under src/; the spec lists the closed set
Pending, Claimed, Running, Completed, Failed, Cancelled. -/
inductive JobStatus where
  | Pending : JobStatus
  | Claimed : JobStatus
  | Running : JobStatus
  | Completed : JobStatus
  | Failed : JobStatus
  | Cancelled : JobStatus
deriving DecidableEq

/-- Core scheduler entity. Modelled from the spec data model: id (128-bit, here a
Nat), name, input bytes, output bytes, status, optional claimant, timestamps. -/
structure Job where
  id : Nat
  name : String
  input : List Nat
  output : List Nat
  status : JobStatus
  claimant : Option Nat
  enqueuedAt : Option Nat
  claimedAt : Option Nat
  completedAt : Option Nat
deriving DecidableEq

/-- The in-memory job queue. Modelled from the spec data model: an ordered
sequence of pending job ids plus a map owning every job, here an
association list. -/
structure JobQueue where
  pending : List Nat
  byId : List (Nat × Job)
deriving DecidableEq

/-- Lookup of a job by id in the association list backing `by_id`. -/
def find_job : List (Nat × Job) → Nat → Option Job
  | [], _ => none
  | (k, j) :: rest, job_id => if k = job_id then some j else find_job rest job_id

/-- In-place replacement of the job stored under a given id. -/
def update_job : List (Nat × Job) → Nat → Job → List (Nat × Job)
  | [], _, _ => []
  | (k, j) :: rest, job_id, j2 =>
      if k = job_id then (k, j2) :: rest else (k, j) :: update_job rest job_id j2

/-- Modelled from the spec: `Job::mark_complete` lives in the `utils` crate, not
under src/. Per the spec, completion fails (InvalidTransition) unless the
current status is Claimed or Running; otherwise it sets the directed status,
stores the output, stamps `completed_at`, and clears the claimant (the spec
invariant requires the claimant to be empty in a terminal state). -/
def Job.mark_complete (j : Job) (s : JobStatus) (out : List Nat) (now : Nat) : Option Job :=
  if j.status = JobStatus.Claimed ∨ j.status = JobStatus.Running then
    some { j with status := s, output := out, completedAt := some now, claimant := none }
  else
    none

/-- Modelled from the spec: `JobQueue::claim` lives in the `utils` crate, not
under src/. Per the spec, it removes the head of `pending`, transitions that
job to Claimed, stamps `claimed_at`, records the claimant, and returns the
job; it returns none on an empty queue. The corrupt-queue case (head id
absent from `by_id`) cannot arise for well-formed queues and is mapped to
none here. -/
def JobQueue.claim (q : JobQueue) (now : Nat) (claimant : Option Nat) : Option Job × JobQueue :=
  match q.pending with
  | [] => (none, q)
  | job_id :: rest =>
    match find_job q.byId job_id with
    | none => (none, q)
    | some job =>
      let claimed := { job with status := JobStatus.Claimed, claimedAt := some now,
                                claimant := claimant }
      (some claimed, ⟨rest, update_job q.byId job_id claimed⟩)

/-- Embeds `claim_job` from src/agent/src/api/v1/scheduler.rs: calls
`queue.claim()` (the HTTP caller's PeerId is unknown, so the claimant is
none), answers 404 when the queue yields nothing, otherwise 200 with the
triple (job_id, name, input). The first component of the result is the HTTP
status paired with the optional response triple; the second is the queue
after the call. -/
def claim_job (q : JobQueue) (now : Nat) :
    (Nat × Option (Nat × String × List Nat)) × JobQueue :=
  match q.claim now none with
  | (none, q2) => ((404, none), q2)
  | (some job, q2) => ((200, some (job.id, job.name, job.input)), q2)

/-- Embeds `complete_job` from src/agent/src/api/v1/scheduler.rs: looks the job
up with `get_job_mut` (404 when absent), then calls
`job.mark_complete(JobStatus::Completed, output)` — the handler takes no
status argument and always passes Completed — answering 200 on success and
400 on error. Returns the HTTP status and the queue after the call. -/
def complete_job (q : JobQueue) (job_id : Nat) (output : List Nat) (now : Nat) :
    Nat × JobQueue :=
  match find_job q.byId job_id with
  | none => (404, q)
  | some job =>
    match job.mark_complete JobStatus.Completed output now with
    | some updated => (200, ⟨q.pending, update_job q.byId job_id updated⟩)
    | none => (400, q)

/-- Follows the spec's words for the complete operation, for comparison with
the embedded handler: looks up the job, fails with NotFound (404) if
unknown, fails with InvalidTransition (400) unless the current status is
Claimed or Running, and otherwise sets the status as directed by the
caller's status argument, stores the output, and stamps `completed_at`. -/
def complete_spec (q : JobQueue) (job_id : Nat) (directed : JobStatus)
    (output : List Nat) (now : Nat) : Nat × JobQueue :=
  match find_job q.byId job_id with
  | none => (404, q)
  | some job =>
    if job.status = JobStatus.Claimed ∨ job.status = JobStatus.Running then
      (200, ⟨q.pending, update_job q.byId job_id
        { job with status := directed, output := output, completedAt := some now,
                   claimant := none }⟩)
    else
      (400, q)

/-- Embeds `tickle_job` from src/agent/src/api/v1/scheduler.rs: the handler body
is exactly `StatusCode::OK` — no lookup, no state change. -/
def tickle_job (q : JobQueue) (_job_id : Nat) : Nat × JobQueue :=
  (200, q)

/-- A job sitting in Claimed state, used as a concrete input. -/
def sampleClaimedJob : Job :=
  { id := 1, name := "j", input := [104, 105], output := [], status := JobStatus.Claimed,
    claimant := some 99, enqueuedAt := some 1, claimedAt := some 2, completedAt := none }

/-- A job sitting in Pending state, used as a concrete input. -/
def samplePendingJob : Job :=
  { id := 1, name := "j", input := [104, 105], output := [], status := JobStatus.Pending,
    claimant := none, enqueuedAt := some 1, claimedAt := none, completedAt := none }

/-- C1 counterexample: the complete handler does not honour a directed status of
Failed. On a queue holding job 1 in Claimed state, the embedded handler
differs from the spec's complete operation directed to Failed — the handler
always marks the job Completed. -/
theorem c1_counterexample :
    complete_job ⟨[], [(1, sampleClaimedJob)]⟩ 1 [7] 10 ≠
      complete_spec ⟨[], [(1, sampleClaimedJob)]⟩ 1 JobStatus.Failed [7] 10 := by
  decide

/-- C1 (amended): the complete handler answers 404 when the job id is unknown,
400 unless the current status is Claimed or Running, and otherwise marks the
job Completed (the handler accepts no status direction), stores the supplied
output, stamps `completed_at`, clears the claimant, and answers 200. -/
theorem c1_complete_behaviour (q : JobQueue) (job_id : Nat) (out : List Nat) (now : Nat) :
    (find_job q.byId job_id = none → complete_job q job_id out now = (404, q))
  ∧ (∀ j, find_job q.byId job_id = some j →
      ¬(j.status = JobStatus.Claimed ∨ j.status = JobStatus.Running) →
      complete_job q job_id out now = (400, q))
  ∧ (∀ j, find_job q.byId job_id = some j →
      (j.status = JobStatus.Claimed ∨ j.status = JobStatus.Running) →
      complete_job q job_id out now = (200, ⟨q.pending, update_job q.byId job_id
        { j with status := JobStatus.Completed, output := out, completedAt := some now,
                 claimant := none }⟩)) := by
  refine ⟨?_, ?_, ?_⟩
  · intro h
    simp [complete_job, h]
  · intro j hj hst
    simp [complete_job, hj, Job.mark_complete, hst]
  · intro j hj hst
    simp [complete_job, hj, Job.mark_complete, hst]

/-- C1 witness: completing job 1 of a queue holding it in Claimed state answers
200 and stores the output with status Completed. -/
theorem c1_witness :
    complete_job ⟨[], [(1, sampleClaimedJob)]⟩ 1 [7] 10 =
      (200, ⟨[], update_job [(1, sampleClaimedJob)] 1
        { sampleClaimedJob with status := JobStatus.Completed, output := [7],
                                completedAt := some 10, claimant := none }⟩) :=
  (c1_complete_behaviour ⟨[], [(1, sampleClaimedJob)]⟩ 1 [7] 10).2.2 sampleClaimedJob
    rfl (Or.inl rfl)

/-- C2: on an empty queue the claim handler answers 404 with no triple and an
unchanged queue; on a non-empty queue it removes the head of `pending`,
transitions that job from Pending to Claimed (stamping `claimed_at`, with no
claimant recorded since the HTTP caller's PeerId is unknown), and answers 200
with the job's identifying triple (job_id, name, input). -/
theorem c2_claim_behaviour (q : JobQueue) (now : Nat) :
    (q.pending = [] → claim_job q now = ((404, none), q))
  ∧ (∀ job_id rest j, q.pending = job_id :: rest → find_job q.byId job_id = some j →
      j.status = JobStatus.Pending →
      claim_job q now = ((200, some (j.id, j.name, j.input)),
        ⟨rest, update_job q.byId job_id
          { j with status := JobStatus.Claimed, claimedAt := some now,
                   claimant := none }⟩)) := by
  constructor
  · intro h
    simp [claim_job, JobQueue.claim, h]
  · intro job_id rest j hp hf _
    simp [claim_job, JobQueue.claim, hp, hf]

/-- C2 witness: claiming from a queue whose pending sequence is the single job 1
in Pending state returns its triple and leaves it Claimed with an empty
pending sequence; claiming from a fresh empty queue answers 404. -/
theorem c2_witness :
    claim_job ⟨[1], [(1, samplePendingJob)]⟩ 5 =
      ((200, some (samplePendingJob.id, samplePendingJob.name, samplePendingJob.input)),
        ⟨[], update_job [(1, samplePendingJob)] 1
          { samplePendingJob with status := JobStatus.Claimed, claimedAt := some 5,
                                  claimant := none }⟩)
  ∧ claim_job ⟨[], []⟩ 5 = ((404, none), ⟨[], []⟩) :=
  ⟨(c2_claim_behaviour ⟨[1], [(1, samplePendingJob)]⟩ 5).2 1 [] samplePendingJob rfl rfl rfl,
   (c2_claim_behaviour ⟨[], []⟩ 5).1 rfl⟩

/-- C3 counterexample: job id 1 is unknown to the empty queue, yet the tickle
handler answers 200, not the 404 the claim requires. -/
theorem c3_counterexample :
    find_job (⟨[], []⟩ : JobQueue).byId 1 = none
  ∧ (tickle_job ⟨[], []⟩ 1).1 = 200
  ∧ (tickle_job ⟨[], []⟩ 1).1 ≠ 404 := by
  refine ⟨rfl, rfl, ?_⟩
  decide

/-- C3 (amended): the tickle handler is a universal no-op — it answers 200 for
every job id, including unknown ones, and never changes the queue: no
activity timestamp is refreshed and no Claimed-to-Running transition
happens. -/
theorem c3_tickle_noop (q : JobQueue) (job_id : Nat) :
    tickle_job q job_id = (200, q) :=
  rfl

/-- The closed set of peer capability roles, from `utils::mesh::ServalRole`
as used by the embedded sources. -/
inductive ServalRole where
  | Scheduler : ServalRole
  | Runner : ServalRole
  | Storage : ServalRole
  | Client : ServalRole
  | Observer : ServalRole
deriving DecidableEq

/-- Peer identity as carried on the mesh: display name, advertised roles, and
an optional HTTP address. Modelled from the spec data model; the constructor
arguments mirror `PeerMetadata::new` as called in src/cli/src/main.rs. -/
structure PeerMetadata where
  displayName : String
  roles : List ServalRole
  address : Option String
deriving DecidableEq

/-- An HTTP response, reduced to the status code and plain-text body the
claims talk about. -/
structure HttpResponse where
  status : Nat
  body : String
deriving DecidableEq

/-- Modelled from the spec: `super::proxy::relay_request` is not under src/.
Per the spec's middleware contract, the relay looks up a peer for the
required role and fails when none is found; when a peer is found the
upstream response is streamed back. Role lookup is abstracted as a
function from roles to an optional peer. -/
def relay_request (peerForRole : ServalRole → Option PeerMetadata) (role : ServalRole)
    (upstream : HttpResponse) : Option HttpResponse :=
  match peerForRole role with
  | none => none
  | some _ => some upstream

/-- The literal 503 body produced by the scheduler proxy handler in
src/agent/src/api/v1/scheduler.rs when the relay fails. -/
def proxyNoPeerBody : String :=
  "Peer with the job runner role not available"

/-- Embeds `proxy` from src/agent/src/api/v1/scheduler.rs: relays the request
with required role Scheduler and, when the relay fails, answers 503 with the
fixed body `proxyNoPeerBody`. -/
def proxy (peerForRole : ServalRole → Option PeerMetadata) (upstream : HttpResponse) :
    HttpResponse :=
  match relay_request peerForRole ServalRole.Scheduler upstream with
  | some resp => resp
  | none => { status := 503, body := proxyNoPeerBody }

/-- Decides whether the second character sequence starts with the first. -/
def seqStartsWith : List Char → List Char → Bool
  | [], _ => true
  | _ :: _, [] => false
  | n :: ns, c :: cs => n == c && seqStartsWith ns cs

/-- Decides whether the first character sequence occurs inside the second. -/
def seqContains (needle : List Char) : List Char → Bool
  | [] => seqStartsWith needle []
  | c :: rest => seqStartsWith needle (c :: rest) || seqContains needle rest

/-- Decides whether the needle string occurs inside the hay string. -/
def strContains (hay needle : String) : Bool :=
  seqContains needle.toList hay.toList

/-- C4 counterexample: with no peer advertising any role, a scheduler-path
request draws a 503 whose body is not the claimed form for role Scheduler
and does not mention Scheduler at all. -/
theorem c4_counterexample :
    (proxy (fun _ => none) ⟨200, "ok"⟩).status = 503
  ∧ (proxy (fun _ => none) ⟨200, "ok"⟩).body ≠ "no peer available for role Scheduler"
  ∧ strContains (proxy (fun _ => none) ⟨200, "ok"⟩).body ("Scheduler") = false := by
  refine ⟨rfl, ?_, ?_⟩ <;> decide

/-- C4 (amended): when role lookup finds no peer for a scheduler-path request,
the proxy replies 503 with the fixed body
"Peer with the job runner role not available", which names the job-runner
role rather than the required role Scheduler. -/
theorem c4_no_peer_fixed_body (peerForRole : ServalRole → Option PeerMetadata)
    (upstream : HttpResponse) (h : peerForRole ServalRole.Scheduler = none) :
    proxy peerForRole upstream = ⟨503, "Peer with the job runner role not available"⟩ := by
  simp [proxy, relay_request, h, proxyNoPeerBody]

/-- C4 witness: with no peer advertising any role, the proxy answers the fixed
503 response. -/
theorem c4_witness :
    proxy (fun _ => none) ⟨200, "ok"⟩ =
      ⟨503, "Peer with the job runner role not available"⟩ :=
  c4_no_peer_fixed_body (fun _ => none) ⟨200, "ok"⟩ rfl

/-- Embeds the metrics call in `proxy` from src/agent/src/api/v1/scheduler.rs.
The handler passes the string literal to the metrics counter; unlike the
log line above it, the metrics counter name is used verbatim, with no
interpolation of `path`, so the key is the constant string
proxy:scheduler:\x7bpath\x7d and the request path is unused. -/
def schedulerProxyCounterKey (_path : String) : String :=
  "proxy:scheduler:\x7bpath\x7d"

/-- C9: evaluating the counter key at the failing input: for a relayed request
with path /v1/scheduler/claim, the incremented counter's key is the constant
literal, not the claimed concatenation of the fixed stem with the path. -/
theorem c9_counter_key_literal :
    schedulerProxyCounterKey "/v1/scheduler/claim" = "proxy:scheduler:\x7bpath\x7d"
  ∧ schedulerProxyCounterKey "/v1/scheduler/claim" ≠
      "proxy:scheduler:" ++ "/v1/scheduler/claim" := by
  refine ⟨rfl, ?_⟩
  decide

/-- The request-body limit constant `MAX_BODY_SIZE_BYTES` from
src/agent/src/main.rs. -/
def MAX_BODY_SIZE_BYTES : Nat := 100 * 1024 * 1024

/-- Modelled from the spec: the axum `DefaultBodyLimit` layer installed in
src/agent/src/main.rs is external code; per the spec, a body exceeding the
limit is rejected with 413 (PayloadTooLarge) and the handler does not run.
The boolean result records whether the handler was invoked. -/
def bodyLimitLayer (handler : List Nat → HttpResponse) (body : List Nat) :
    HttpResponse × Bool :=
  if MAX_BODY_SIZE_BYTES < body.length then
    ({ status := 413, body := "length limit exceeded" }, false)
  else
    (handler body, true)

/-- C7: the agent's body limit is exactly 100 MiB, and a request whose body
exceeds it is answered 413 without the handler being invoked. -/
theorem c7_body_limit (handler : List Nat → HttpResponse) (body : List Nat)
    (h : MAX_BODY_SIZE_BYTES < body.length) :
    MAX_BODY_SIZE_BYTES = 100 * 1024 * 1024
  ∧ bodyLimitLayer handler body = ({ status := 413, body := "length limit exceeded" }, false) :=
  ⟨rfl, by simp [bodyLimitLayer, h]⟩

/-- C7 witness: a body of 100 MiB plus one byte exceeds the limit and is
rejected with 413 without invoking the handler. -/
theorem c7_witness :
    MAX_BODY_SIZE_BYTES = 100 * 1024 * 1024
  ∧ bodyLimitLayer (fun _ => { status := 200, body := "" })
      (List.replicate (MAX_BODY_SIZE_BYTES + 1) 0) =
      ({ status := 413, body := "length limit exceeded" }, false) :=
  c7_body_limit (fun _ => { status := 200, body := "" })
    (List.replicate (MAX_BODY_SIZE_BYTES + 1) 0)
    (by simp [List.length_replicate])

/-- Outcome of the agent's bind loop in src/agent/src/main.rs: the server ends
up bound on a port, or the process exits with status 1 (predefined port in
use), or `find_nearest_port(8100).unwrap()` finds no port at all. -/
inductive BindOutcome where
  | bound : Nat → BindOutcome
  | exit1 : BindOutcome
  | noFreePort : BindOutcome
deriving DecidableEq

/-- Modelled from the spec: `utils::networking::find_nearest_port` is not under
src/; per the spec it scans upward from the start port until a bind would
succeed. Port occupancy is abstracted as a predicate; the fuel bounds the
scan by the size of the port space. -/
def find_nearest_port (inUse : Nat → Bool) (start : Nat) : Nat → Option Nat
  | 0 => none
  | fuel + 1 => if inUse start then find_nearest_port inUse (start + 1) fuel else some start

/-- Accumulating decimal parser over a character sequence; fails on any
non-digit character. -/
def parseDigits (acc : Nat) : List Char → Option Nat
  | [] => some acc
  | c :: cs => if c.isDigit then parseDigits (acc * 10 + (c.toNat - 48)) cs else none

/-- Embeds `port_str.parse::<u16>().ok()` from src/agent/src/main.rs: the PORT
string must be a non-empty decimal number fitting in sixteen bits. -/
def parseU16 (s : String) : Option Nat :=
  match s.toList with
  | [] => none
  | c :: cs =>
    match parseDigits 0 (c :: cs) with
    | some n => if n < 65536 then some n else none
    | none => none

/-- Embeds the bind loop of `main` in src/agent/src/main.rs against a static
occupancy predicate: with PORT set and parseable, the agent binds that port
if free and otherwise exits with status 1; with PORT unset (or unparseable),
it binds the port found by scanning upward from 8100, which is free by
construction, so the retry loop finishes on the first iteration. -/
def choosePort (portEnv : Option String) (inUse : Nat → Bool) : BindOutcome :=
  match portEnv.bind parseU16 with
  | some p => if inUse p then BindOutcome.exit1 else BindOutcome.bound p
  | none =>
    match find_nearest_port inUse 8100 65536 with
    | some p => BindOutcome.bound p
    | none => BindOutcome.noFreePort

/-- Embeds the advertisement calls of `main` in src/agent/src/main.rs: every
`advertise_service` call passes the very port the server bound. -/
def advertisedPort : BindOutcome → Option Nat
  | BindOutcome.bound p => some p
  | BindOutcome.exit1 => none
  | BindOutcome.noFreePort => none

/-- Scanning from a start port finds exactly the least free port at or above
it, when one exists within the fuel. -/
theorem find_nearest_port_of_least (inUse : Nat → Bool) (fuel : Nat) :
    ∀ start q : Nat, inUse q = false → start ≤ q → q < start + fuel →
      (∀ r, start ≤ r → r < q → inUse r = true) →
      find_nearest_port inUse start fuel = some q := by
  induction fuel with
  | zero =>
    intro start q _ hge hlt _
    omega
  | succ f ih =>
    intro start q hfree hge hlt hmin
    by_cases h : inUse start = true
    · have hne : start ≠ q := by
        intro he
        rw [he] at h
        rw [hfree] at h
        exact Bool.noConfusion h
      have : find_nearest_port inUse (start + 1) f = some q :=
        ih (start + 1) q hfree (by omega) (by omega) (fun r h1 h2 => hmin r (by omega) h2)
      simp [find_nearest_port, h, this]
    · have hb : inUse start = false := by
        cases hc : inUse start
        · rfl
        · exact absurd hc h
      have heq : start = q := by
        by_contra hne
        have hlt2 : start < q := by omega
        have := hmin start (Nat.le_refl start) hlt2
        rw [hb] at this
        exact Bool.noConfusion this
      subst heq
      simp [find_nearest_port, hb]

/-- C6: with PORT set to a parseable value naming a free port, the agent binds
that port; with PORT unset, it binds the least free port at or above 8100
and advertises itself on that same port. -/
theorem c6_port_selection (inUse : Nat → Bool) (s : String) (p q : Nat)
    (hp : parseU16 s = some p) (hfree : inUse p = false)
    (hqfree : inUse q = false) (hq1 : 8100 ≤ q) (hq2 : q < 8100 + 65536)
    (hqmin : ∀ r, 8100 ≤ r → r < q → inUse r = true) :
    choosePort (some s) inUse = BindOutcome.bound p
  ∧ choosePort none inUse = BindOutcome.bound q
  ∧ advertisedPort (choosePort none inUse) = some q := by
  have hfind : find_nearest_port inUse 8100 65536 = some q :=
    find_nearest_port_of_least inUse 65536 8100 q hqfree hq1 hq2 hqmin
  have h1 : choosePort (some s) inUse = BindOutcome.bound p := by
    simp [choosePort, hp, hfree]
  have h2 : choosePort none inUse = BindOutcome.bound q := by
    simp [choosePort, hfind]
  refine ⟨h1, h2, ?_⟩
  rw [h2]
  rfl

/-- C6 witness: with only port 8100 in use, setting PORT to 9000 binds 9000,
and leaving PORT unset binds and advertises 8101. -/
theorem c6_witness :
    choosePort (some "9000") (fun r => decide (r = 8100)) = BindOutcome.bound 9000
  ∧ choosePort none (fun r => decide (r = 8100)) = BindOutcome.bound 8101
  ∧ advertisedPort (choosePort none (fun r => decide (r = 8100))) = some 8101 :=
  c6_port_selection (fun r => decide (r = 8100)) "9000" 9000 8101
    (by decide) (by decide) (by decide) (by omega) (by omega)
    (by
      intro r h1 h2
      have : r = 8100 := by omega
      rw [this]
      decide)

/-- C10: with PORT set to a parseable value naming a port that is in use, the
agent exits with status 1 instead of scanning for another port; the scan
branch is only reachable when PORT yields no predefined port. -/
theorem c10_predefined_port_conflict (inUse : Nat → Bool) (s : String) (p : Nat)
    (hp : parseU16 s = some p) (hbusy : inUse p = true) :
    choosePort (some s) inUse = BindOutcome.exit1 := by
  simp [choosePort, hp, hbusy]

/-- C10 witness: with every port in use and PORT set to 8100, the agent exits
with status 1. -/
theorem c10_witness :
    choosePort (some "8100") (fun _ => true) = BindOutcome.exit1 :=
  c10_predefined_port_conflict (fun _ => true) "8100" 8100 (by decide) rfl

/-- Observable actions the CLI performs against the mesh library during
discovery, in order: joining, sleeping a number of seconds, looking up a
role, and leaving. -/
inductive MeshAction where
  | join : MeshAction
  | waitSecs : Nat → MeshAction
  | findRole : ServalRole → MeshAction
  | leave : MeshAction
deriving DecidableEq

/-- The transient metadata the CLI joins with, from the
`PeerMetadata::new(format!("client@\x7bhost\x7d"), vec![ServalRole::Client], None)`
call in src/cli/src/main.rs: display name derived from HOST, role set
exactly the singleton Client, and no HTTP address. -/
def clientMetadata (host : String) : PeerMetadata :=
  { displayName := "client@" ++ host, roles := [ServalRole.Client], address := none }

/-- Embeds `maybe_find_peer` from src/cli/src/main.rs. When the override
environment variable is set, its value is returned with no mesh traffic.
Otherwise the CLI builds `clientMetadata`, starts the mesh, sleeps five
seconds, performs `find_role` for the target role, and stops the mesh before
returning: ok with the peer's address as a URL, or an error when the peer
has no address or no peer was found. The mesh library itself is external;
its `find_role` answer is abstracted as a function, and the interaction is
recorded as the list of actions performed together with the metadata
joined with (none when the override short-circuits). -/
def maybe_find_peer (overrideUrl : Option String) (host : String)
    (meshFindRole : ServalRole → Option PeerMetadata) (role : ServalRole) :
    Except String String × List MeshAction × Option PeerMetadata :=
  match overrideUrl with
  | some url => (Except.ok url, [], none)
  | none =>
    let result : Except String String :=
      match meshFindRole role with
      | some target =>
        match target.address with
        | some addr => Except.ok ("http://" ++ addr)
        | none => Except.error ("found a peer without an address somehow")
      | none => Except.error ("Unable to locate a peer with the role")
    (result, [MeshAction.join, MeshAction.waitSecs 5, MeshAction.findRole role,
              MeshAction.leave],
      some (clientMetadata host))

/-- Embeds `main` from src/cli/src/main.rs: discovery runs first with target
role Runner; a discovery error propagates out of main as an anyhow error,
which the Rust runtime maps to process exit code 1, and so does any error
from the selected subcommand; otherwise the exit code is 0. -/
def cliMain (overrideUrl : Option String) (host : String)
    (meshFindRole : ServalRole → Option PeerMetadata)
    (cmdResult : Except String Unit) : Nat :=
  match (maybe_find_peer overrideUrl host meshFindRole ServalRole.Runner).1 with
  | Except.error _ => 1
  | Except.ok _ =>
    match cmdResult with
    | Except.error _ => 1
    | Except.ok _ => 0

/-- C5: a CLI run with no configured address joins with a transient metadata
whose role set is exactly the singleton Client, and its mesh interaction is
exactly join, a five-second settling wait, one role lookup for the target
role, then leave — so the client does not remain a mesh member after
discovery, whatever the lookup returns. -/
theorem c5_discovery_bootstrap (host : String)
    (meshFindRole : ServalRole → Option PeerMetadata) (role : ServalRole) :
    (maybe_find_peer none host meshFindRole role).2.2 = some (clientMetadata host)
  ∧ (clientMetadata host).roles = [ServalRole.Client]
  ∧ (maybe_find_peer none host meshFindRole role).2.1 =
      [MeshAction.join, MeshAction.waitSecs 5, MeshAction.findRole role,
       MeshAction.leave] :=
  ⟨rfl, rfl, rfl⟩

/-- C8 counterexample: when discovery fails (no peer advertises Runner and no
override is configured), the CLI process exits with code 1, not the claimed
code 2. -/
theorem c8_counterexample :
    cliMain none "0.0.0.0" (fun _ => none) (Except.ok ()) = 1
  ∧ cliMain none "0.0.0.0" (fun _ => none) (Except.ok ()) ≠ 2 := by
  refine ⟨rfl, ?_⟩
  decide

/-- C8 (amended): the CLI exits 0 on success and 1 on every failure — a
discovery failure included, since its error propagates through main like any
other — and no run ever exits with code 2. -/
theorem c8_exit_codes (overrideUrl : Option String) (host : String)
    (meshFindRole : ServalRole → Option PeerMetadata) (cmdResult : Except String Unit) :
    (∀ e, (maybe_find_peer overrideUrl host meshFindRole ServalRole.Runner).1 =
        Except.error e → cliMain overrideUrl host meshFindRole cmdResult = 1)
  ∧ (∀ url, (maybe_find_peer overrideUrl host meshFindRole ServalRole.Runner).1 =
        Except.ok url → cmdResult = Except.ok () →
      cliMain overrideUrl host meshFindRole cmdResult = 0)
  ∧ (∀ url e2, (maybe_find_peer overrideUrl host meshFindRole ServalRole.Runner).1 =
        Except.ok url → cmdResult = Except.error e2 →
      cliMain overrideUrl host meshFindRole cmdResult = 1)
  ∧ cliMain overrideUrl host meshFindRole cmdResult ≠ 2 := by
  refine ⟨?_, ?_, ?_, ?_⟩
  · intro e he
    simp [cliMain, he]
  · intro url he hc
    simp [cliMain, he, hc]
  · intro url e2 he hc
    simp [cliMain, he, hc]
  · unfold cliMain
    cases (maybe_find_peer overrideUrl host meshFindRole ServalRole.Runner).1 with
    | error e => simp
    | ok v =>
      cases cmdResult with
      | error e2 => simp
      | ok u => simp

/-- C8 witness: a failed discovery run exits 1; a run whose discovery succeeds
through the override but whose subcommand fails also exits 1; a fully
successful run exits 0; and none of these runs exits 2. -/
theorem c8_witness :
    cliMain none "host" (fun _ => none) (Except.error ("boom")) = 1
  ∧ cliMain (some ("http://x")) "host" (fun _ => none) (Except.error ("boom")) = 1
  ∧ cliMain (some ("http://x")) "host" (fun _ => none) (Except.ok ()) = 0
  ∧ cliMain none "host" (fun _ => none) (Except.error ("boom")) ≠ 2 :=
  ⟨(c8_exit_codes none "host" (fun _ => none) (Except.error ("boom"))).1
      "Unable to locate a peer with the role" rfl,
   (c8_exit_codes (some ("http://x")) "host" (fun _ => none) (Except.error ("boom"))).2.2.1
      "http://x" "boom" rfl rfl,
   (c8_exit_codes (some ("http://x")) "host" (fun _ => none) (Except.ok ())).2.1
      "http://x" rfl rfl,
   (c8_exit_codes none "host" (fun _ => none) (Except.error ("boom"))).2.2.2⟩

end ServalMesh
